import Mathlib

/-!
Shallow embedding of the EdgeNet headnode user-registration-request
controller, from src/pkg/controller/v1alpha/userregistrationrequest/handler.go.

The handlers are modelled as pure functions from a cluster-state snapshot and
the notification payload to the ordered trace of calls they issue (reads that
matter to the claims, and every mutation).  Ignored Go errors on Get calls are
modelled the way client-go behaves: the returned object is the zero value of
its type, and the handler goes on with it.  The approval/timeout supervisor's
channel race is modelled as a step function over the serialized sequence of
events its select loop consumes.
-/

/-- Status block of a UserRegistrationRequest: `{approved, expires}`.
Timestamps are integers (the unit is irrelevant to the claims). -/
structure URRStatus where
  approved : Bool
  expires : Option Int
  deriving DecidableEq

/-- Spec block of a UserRegistrationRequest (identity fields used by the handler). -/
structure URRSpec where
  bio : String
  email : String
  firstName : String
  lastName : String
  password : String
  roles : List String
  url : String
  deriving DecidableEq

/-- The subject resource of the controller. -/
structure UserRegistrationRequest where
  name : String
  nsName : String
  uid : String
  spec : URRSpec
  status : URRStatus
  deriving DecidableEq

/-- Spec block of a User (the provisioned Account). -/
structure UserSpec where
  bio : String
  email : String
  firstName : String
  lastName : String
  password : String
  roles : List String
  url : String
  deriving DecidableEq

/-- The Account resource ("User"). -/
structure User where
  name : String
  nsName : String
  spec : UserSpec
  deriving DecidableEq

/-- A core/v1 Namespace: only its labels matter to the handler. -/
structure NamespaceObj where
  name : String
  labels : List (String × String)
  deriving DecidableEq

/-- A Site: the handler only reads `Status.Enabled`. -/
structure Site where
  name : String
  enabled : Bool
  deriving DecidableEq

/-- metav1.OwnerReference restricted to the fields the handler sets. -/
structure OwnerReference where
  kind : String
  name : String
  controller : Bool
  blockOwnerDeletion : Bool
  deriving DecidableEq

/-- A core/v1 Secret restricted to what the handler touches. -/
structure Secret where
  name : String
  nsName : String
  ownerReferences : List OwnerReference
  deriving DecidableEq

/-- Spec block of an EmailVerification (the VerificationChallenge). -/
structure EVSpec where
  kind : String
  identifier : String
  deriving DecidableEq

/-- The VerificationChallenge object ("EmailVerification"). -/
structure EmailVerification where
  name : String
  ownerReferences : List OwnerReference
  spec : EVSpec
  deriving DecidableEq

/-- mailer.VerifyContentData: the template variables of the mail. -/
structure VerifyContentData where
  site : String
  username : String
  fullName : String
  email : List String
  code : String
  deriving DecidableEq

/-- Snapshot of the cluster objects the handlers read. -/
structure ClusterState where
  namespaces : List NamespaceObj
  sites : List Site
  users : List User
  urrs : List UserRegistrationRequest
  secrets : List Secret
  deriving DecidableEq

/-- The notification payload handed to ObjectCreated/ObjectUpdated: in Go it
is an `interface\x7b\x7d`, either a pointer to a UserRegistrationRequest or
anything else (on which the unchecked type assertion panics). -/
inductive NotifObj where
  | urr (r : UserRegistrationRequest)
  | other
  deriving DecidableEq

/-- Ambient inputs of a handler run: the wall clock, the random source feeding
`rand.Intn`, and whether the EmailVerifications Create call succeeds. -/
structure Env where
  now : Int
  rng : Nat → Nat
  evCreateOk : Bool

/-- The alphabet of generateRandomString, from the source:
"abcdefghijklmnopqrstuvwxyz0123456789". -/
def letterTable : List Char := "abcdefghijklmnopqrstuvwxyz0123456789".toList

/-- generateRandomString from the source: n characters, each
`letter[rand.Intn(len(letter))]`; the random draws are modelled by
`rng i % 36`. -/
def generateRandomString (n : Nat) (rng : Nat → Nat) : String :=
  String.mk ((List.range n).map (fun i => letterTable.getD (rng i % letterTable.length) 'a'))

/-- checkUsernameEmailAddress from the source: (1) list Users in the request's
own namespace whose name equals the request's name; if none, (2) scan all
Users cluster-wide for the request's email; (3) if still not found, scan all
UserRegistrationRequests cluster-wide for the email, excluding the candidate
by UID. -/
def checkUsernameEmailAddress (st : ClusterState) (urr : UserRegistrationRequest) : Bool :=
  let nameMatches := st.users.filter (fun u => u.nsName == urr.nsName && u.name == urr.name)
  let exist :=
    if nameMatches.length == 0 then
      st.users.any (fun u => u.spec.email == urr.spec.email)
    else
      true
  if !exist then
    st.urrs.any (fun r => r.spec.email == urr.spec.email && r.uid != urr.uid)
  else
    exist

/-- The Namespaces().Get call with its error discarded: on a miss the handler
holds the zero-valued Namespace (empty name, no labels), as client-go returns. -/
def namespaceOf (st : ClusterState) (nsName : String) : NamespaceObj :=
  (st.namespaces.find? (fun n => n.name == nsName)).getD { name := "", labels := [] }

/-- The "site-name" label of the request's namespace; "" when the namespace or
the label is missing (a map access on the zero value yields ""). -/
def siteLabelOf (st : ClusterState) (nsName : String) : String :=
  (List.lookup "site-name" (namespaceOf st nsName).labels).getD ""

/-- The Sites().Get call with its error discarded: on a miss the handler holds
the zero-valued Site, whose Status.Enabled is false. -/
def resolvedSite (st : ClusterState) (nsName : String) : Site :=
  (st.sites.find? (fun s => s.name == siteLabelOf st nsName)).getD { name := "", enabled := false }

/-- Modelled from the spec: `CreateSecretByPassword(request) -> secretReference`
with deterministic naming `<request-name>-pass`; the registration package is
not among the provided sources. -/
def createSecretByPassword (urr : UserRegistrationRequest) : String :=
  urr.name ++ "-pass"

/-- setOwnerReferences from the source: a single reference to the request,
built by metav1.NewControllerRef and then demoted to non-controlling. -/
def setOwnerReferences (urr : UserRegistrationRequest) : List OwnerReference :=
  [{ kind := "UserRegistrationRequest", name := urr.name, controller := false,
     blockOwnerDeletion := true }]

/-- The owner reference ObjectUpdated appends to the password secret: built by
metav1.NewControllerRef(userCreated, "User") and then demoted to
non-controlling (`takeControl := false`). -/
def accountRef (accName : String) : OwnerReference :=
  { kind := "User", name := accName, controller := false, blockOwnerDeletion := true }

/-- The Account built field-by-field from the request in ObjectUpdated. -/
def mkUser (urr : UserRegistrationRequest) : User :=
  { name := urr.name, nsName := urr.nsName,
    spec := { bio := urr.spec.bio, email := urr.spec.email,
              firstName := urr.spec.firstName, lastName := urr.spec.lastName,
              password := urr.spec.password, roles := urr.spec.roles,
              url := urr.spec.url } }

/-- 72 hours, the approval timeout, in seconds. -/
def hours72 : Int := 72 * 60 * 60

/-- One observable step of a handler run, in program order. -/
inductive HAction where
  | checkUniqueness (name : String)
  | resolveSite (nsName : String)
  | deleteURR (nsName name : String)
  | createSecret (secretName : String)
  | updateURR (urr : UserRegistrationRequest)
  | startSupervisor (urr : UserRegistrationRequest)
  | updateStatus (urr : UserRegistrationRequest)
  | createEmailVerification (ev : EmailVerification)
  | sendMail (template : String) (d : VerifyContentData)
  | createUser (u : User)
  | getSecret (secretName : String)
  | updateSecret (nsName : String) (s : Secret)
  deriving DecidableEq

def isStartSupervisor : HAction → Bool
  | HAction.startSupervisor _ => true
  | _ => false

def isUpdateStatus : HAction → Bool
  | HAction.updateStatus _ => true
  | _ => false

def isCreateSecret : HAction → Bool
  | HAction.createSecret _ => true
  | _ => false

def isCreateEV : HAction → Bool
  | HAction.createEmailVerification _ => true
  | _ => false

def isSendMail : HAction → Bool
  | HAction.sendMail _ _ => true
  | _ => false

def isDeleteURR : HAction → Bool
  | HAction.deleteURR _ _ => true
  | _ => false

/-- ObjectCreated from the source, as the trace of calls it issues.  Program
order: the uniqueness check runs first; then the namespace and site are
resolved with ignored errors; on the enabled-site fresh path the secret is
created, the spec update is written, the supervisor goroutine is started,
the verification object is created (the mail is sent only on its success) and
the deferred UpdateStatus runs last.  A payload that is not a
UserRegistrationRequest makes the unchecked type assertion panic. -/
def ObjectCreated (st : ClusterState) (env : Env) (obj : NotifObj) : Except String (List HAction) :=
  match obj with
  | NotifObj.other => Except.error "interface conversion: not a UserRegistrationRequest"
  | NotifObj.urr urr =>
    if checkUsernameEmailAddress st urr then
      Except.ok [HAction.checkUniqueness urr.name, HAction.deleteURR urr.nsName urr.name]
    else
      if (resolvedSite st urr.nsName).enabled then
        match urr.status.expires with
        | none =>
          let secretName := createSecretByPassword urr
          let urr1 := { urr with spec := { urr.spec with password := secretName } }
          let urr2 := { urr1 with
            status := { approved := false, expires := some (env.now + hours72) } }
          let code := "bs" ++ generateRandomString 16 env.rng
          let ev : EmailVerification :=
            { name := code, ownerReferences := setOwnerReferences urr2,
              spec := { kind := "User", identifier := urr.name } }
          let mailActs :=
            if env.evCreateOk then
              [HAction.sendMail "user-email-verification"
                { site := siteLabelOf st urr.nsName, username := urr2.name,
                  fullName := urr2.spec.firstName ++ " " ++ urr2.spec.lastName,
                  email := [urr2.spec.email], code := code }]
            else []
          Except.ok ([HAction.checkUniqueness urr.name, HAction.resolveSite urr.nsName,
            HAction.createSecret secretName, HAction.updateURR urr1,
            HAction.startSupervisor urr1,
            HAction.createEmailVerification ev] ++ mailActs ++ [HAction.updateStatus urr2])
        | some _ =>
          Except.ok [HAction.checkUniqueness urr.name, HAction.resolveSite urr.nsName,
            HAction.startSupervisor urr]
      else
        Except.ok [HAction.checkUniqueness urr.name, HAction.resolveSite urr.nsName,
          HAction.deleteURR urr.nsName urr.name]

/-- ObjectUpdated from the source, as the trace of calls it issues: resolve
namespace and site (errors ignored); if the site is enabled and the request
approved, re-run the uniqueness check, on no duplicate create the Account,
fetch the password secret (error ignored, zero value on a miss), append the
non-controlling Account reference and write the secret back, and in the
approved branch always delete the request; a disabled site deletes the
request. -/
def ObjectUpdated (st : ClusterState) (obj : NotifObj) : Except String (List HAction) :=
  match obj with
  | NotifObj.other => Except.error "interface conversion: not a UserRegistrationRequest"
  | NotifObj.urr urr =>
    if (resolvedSite st urr.nsName).enabled then
      if urr.status.approved then
        if checkUsernameEmailAddress st urr then
          Except.ok [HAction.resolveSite urr.nsName, HAction.checkUniqueness urr.name,
            HAction.deleteURR urr.nsName urr.name]
        else
          let secretName := urr.name ++ "-pass"
          let oldSecret := (st.secrets.find?
              (fun s => s.nsName == urr.nsName && s.name == secretName)).getD
            { name := "", nsName := "", ownerReferences := [] }
          Except.ok [HAction.resolveSite urr.nsName, HAction.checkUniqueness urr.name,
            HAction.createUser (mkUser urr), HAction.getSecret secretName,
            HAction.updateSecret urr.nsName
              { oldSecret with
                ownerReferences := oldSecret.ownerReferences ++ [accountRef urr.name] },
            HAction.deleteURR urr.nsName urr.name]
      else
        Except.ok [HAction.resolveSite urr.nsName]
    else
      Except.ok [HAction.resolveSite urr.nsName, HAction.deleteURR urr.nsName urr.name]

/-- The trace of a handler run, [] on a panic. -/
def traceOf (r : Except String (List HAction)) : List HAction := r.toOption.getD []

/-- Does a run delete the request? -/
def deletesRequest (r : Except String (List HAction)) : Bool := (traceOf r).any isDeleteURR

/-- The request value the supervisor goroutine is handed, if one is started. -/
def supervisorStartedWith (tr : List HAction) : Option UserRegistrationRequest :=
  tr.findSome? (fun a => match a with | HAction.startSupervisor u => some u | _ => none)

/-- The status block the deferred UpdateStatus writes, if it runs. -/
def statusWrittenWith (tr : List HAction) : Option URRStatus :=
  tr.findSome? (fun a => match a with | HAction.updateStatus u => some u.status | _ => none)

/-- The VerificationChallenge object created by the run, if any. -/
def evCreated (tr : List HAction) : Option EmailVerification :=
  tr.findSome? (fun a => match a with | HAction.createEmailVerification ev => some ev | _ => none)

/-- The secret value written back by the run, if any. -/
def secretWritten (tr : List HAction) : Option Secret :=
  tr.findSome? (fun a => match a with | HAction.updateSecret _ s => some s | _ => none)

/-- Does a secret hold a controlling owner reference to an Account of the
given name? -/
def hasControllingAccountRef (s : Secret) (accName : String) : Bool :=
  s.ownerReferences.any (fun r => r.kind == "User" && r.name == accName && r.controller)

/-- One serialized occurrence the supervisor's select loop consumes: a watch
event carrying the updated request (ADDED/MODIFIED), a watch DELETED event, or
the armed deadline timer firing. -/
inductive SupEvent where
  | watchModified (u : UserRegistrationRequest)
  | watchDeleted
  | deadlineFires
  deriving DecidableEq

/-- The states of the supervisor's race: still watching, or one of the three
terminal outcomes. -/
inductive SupPhase where
  | watching
  | approvedDone
  | expiredDone
  | externallyDeleted
  deriving DecidableEq

/-- The cluster calls a supervisor run performs. -/
inductive SupAction where
  | stopWatch
  | deleteRequest (nsName name : String)
  deriving DecidableEq

/-- The select loop of runApprovalTimeout with a live watch, from the source:
an approved update stops the watch and terminates with no deletion; a DELETED
event stops the watch and terminates; an unapproved update carrying an expires
value re-arms the timer and stays in the loop; the armed timer firing stops
the watch, deletes the request and terminates.  `armed` is the timer channel:
none is Go's nil channel, on which a receive never fires, so a deadlineFires
occurrence is impossible and skipped. -/
def supLoop (orig : UserRegistrationRequest) (armed : Option Int) :
    List SupEvent → SupPhase × List SupAction
  | [] => (SupPhase.watching, [])
  | SupEvent.watchModified u :: rest =>
    if u.status.approved then
      (SupPhase.approvedDone, [SupAction.stopWatch])
    else
      match u.status.expires with
      | some t => supLoop orig (some t) rest
      | none => supLoop orig armed rest
  | SupEvent.watchDeleted :: _ => (SupPhase.externallyDeleted, [SupAction.stopWatch])
  | SupEvent.deadlineFires :: rest =>
    match armed with
    | some _ =>
      (SupPhase.expiredDone,
        [SupAction.stopWatch, SupAction.deleteRequest orig.nsName orig.name])
    | none => supLoop orig armed rest

/-- The degraded mode of runApprovalTimeout, when the Watch call returned an
error: the fallback 72-hour timer is armed, and no watch events can occur
because no watcher goroutine runs.  When the timer fires, the source calls
watchURR.Stop() before its Delete call — but on this path watchURR is the nil
interface the failed Watch call returned alongside its error (client-go's
typed Watch returns nil on error), and a method call through a nil interface
panics, so the Delete call is never reached. -/
def supLoopDegraded : List SupEvent → Except String (SupPhase × List SupAction)
  | [] => Except.ok (SupPhase.watching, [])
  | SupEvent.deadlineFires :: _ =>
    Except.error "runtime error: invalid memory address or nil pointer dereference"
  | _ :: rest => supLoopDegraded rest

/-- runApprovalTimeout from the source.  With a live watch the initial timer is
armed from the request's expires field (nil channel when unset); with a failed
watch the run is the degraded loop above. -/
def runApprovalTimeout (watchOk : Bool) (urr : UserRegistrationRequest)
    (events : List SupEvent) : Except String (SupPhase × List SupAction) :=
  if watchOk then
    Except.ok (supLoop urr urr.status.expires events)
  else
    supLoopDegraded events

/-- Does a terminated supervisor run delete the request? -/
def supDeletes (r : Except String (SupPhase × List SupAction)) : Bool :=
  match r with
  | Except.ok (_, acts) => acts.any (fun a => match a with
      | SupAction.deleteRequest _ _ => true
      | _ => false)
  | Except.error _ => false

/-- Identity fields of the running example request. -/
def specAlice : URRSpec :=
  { bio := "", email := "alice@example.org", firstName := "Alice", lastName := "Doe",
    password := "", roles := [], url := "" }

/-- A fresh request: no expires, not approved. -/
def urrFresh : UserRegistrationRequest :=
  { name := "alice", nsName := "nsA", uid := "u1", spec := specAlice,
    status := { approved := false, expires := none } }

/-- The same request once admitted: expires set, still unapproved. -/
def urrReplayed : UserRegistrationRequest :=
  { urrFresh with status := { approved := false, expires := some 100 } }

/-- The same request approved. -/
def urrApproved : UserRegistrationRequest :=
  { urrFresh with
    status := { approved := true, expires := some 100 },
    spec := { specAlice with password := "alice-pass" } }

/-- The request's namespace, labelled with its site. -/
def nsA : NamespaceObj := { name := "nsA", labels := [("site-name", "siteX")] }

/-- The site, enabled. -/
def siteOn : Site := { name := "siteX", enabled := true }

/-- The site, disabled. -/
def siteOff : Site := { name := "siteX", enabled := false }

/-- A healthy cluster: namespace and enabled site resolvable, nothing else. -/
def stOk : ClusterState :=
  { namespaces := [nsA], sites := [siteOn], users := [], urrs := [], secrets := [] }

/-- The cluster with the site disabled. -/
def stDisabled : ClusterState :=
  { namespaces := [nsA], sites := [siteOff], users := [], urrs := [], secrets := [] }

/-- The cluster with the request's namespace missing: the Namespaces().Get
call fails and the handler continues on the zero-valued objects. -/
def stNoNamespace : ClusterState :=
  { namespaces := [], sites := [siteOn], users := [], urrs := [], secrets := [] }

/-- The cluster holding an Account also named "alice" but in another namespace
nsB, with a different email. -/
def stOtherNsAccount : ClusterState :=
  { namespaces := [nsA], sites := [siteOn],
    users := [{ name := "alice", nsName := "nsB",
                spec := { bio := "", email := "bob@example.org", firstName := "B",
                          lastName := "B", password := "", roles := [], url := "" } }],
    urrs := [], secrets := [] }

/-- The password secret as it exists at approval time, owned (non-controlling)
by the request. -/
def secretAlice : Secret :=
  { name := "alice-pass", nsName := "nsA",
    ownerReferences := [{ kind := "UserRegistrationRequest", name := "alice",
                          controller := false, blockOwnerDeletion := true }] }

/-- The cluster at approval time: the password secret exists. -/
def stApproval : ClusterState :=
  { namespaces := [nsA], sites := [siteOn], users := [], urrs := [],
    secrets := [secretAlice] }

/-- A deterministic environment; the EmailVerifications Create call fails. -/
def envNoMail : Env := { now := 0, rng := fun _ => 0, evCreateOk := false }

/-- A deterministic environment; the EmailVerifications Create call succeeds. -/
def envMail : Env := { now := 0, rng := fun _ => 0, evCreateOk := true }

/-- The admitted request as re-delivered by the watch with a renewed deadline,
still unapproved. -/
def urrRenewed : UserRegistrationRequest :=
  { urrFresh with status := { approved := false, expires := some 200 } }

/-- An Account named like the request, in the request's own namespace, with a
different email. -/
def userAliceNsA : User :=
  { name := "alice", nsName := "nsA",
    spec := { bio := "", email := "bob@example.org", firstName := "B", lastName := "B",
              password := "", roles := [], url := "" } }

/-- The cluster holding that same-namespace Account. -/
def stSameNsAccount : ClusterState :=
  { namespaces := [nsA], sites := [siteOn], users := [userAliceNsA], urrs := [], secrets := [] }

/-- Does a handler run return normally (no panic)? -/
def runsOk (r : Except String (List HAction)) : Bool :=
  match r with
  | Except.ok _ => true
  | Except.error _ => false

/-- C1.  The claim: a create or update notification whose Site/Namespace
resolution fails performs no state mutation and in particular never deletes
the request.  False on the code: both handlers discard the lookup errors and
continue on the zero-valued objects client-go hands back, whose site is not
enabled, so the disabled-site branch deletes the request.  Concretely, with
the request's namespace absent from the cluster, both handlers delete it. -/
theorem c1_counterexample :
    stNoNamespace.namespaces.find? (fun n => n.name == urrFresh.nsName) = none
    ∧ deletesRequest (ObjectCreated stNoNamespace envNoMail (NotifObj.urr urrFresh)) = true
    ∧ deletesRequest (ObjectUpdated stNoNamespace (NotifObj.urr urrFresh)) = true := by
  decide

/-- C1 amended.  When the namespace lookup fails (and no Site is named by the
empty string), the handlers hold zero-valued objects, resolve the site as not
enabled, and delete the request: a resolution failure is promoted to the
deletion decision on both the create path (for a non-duplicate request) and
the update path. -/
theorem c1_theorem (st : ClusterState) (env : Env) (urr : UserRegistrationRequest)
    (hns : st.namespaces.find? (fun n => n.name == urr.nsName) = none)
    (hempty : st.sites.find? (fun s => s.name == "") = none)
    (hdup : checkUsernameEmailAddress st urr = false) :
    ObjectCreated st env (NotifObj.urr urr) =
      Except.ok [HAction.checkUniqueness urr.name, HAction.resolveSite urr.nsName,
        HAction.deleteURR urr.nsName urr.name]
    ∧ ObjectUpdated st (NotifObj.urr urr) =
      Except.ok [HAction.resolveSite urr.nsName, HAction.deleteURR urr.nsName urr.name] := by
  have hlab : siteLabelOf st urr.nsName = "" := by
    simp [siteLabelOf, namespaceOf, hns]
  have hsite : resolvedSite st urr.nsName = { name := "", enabled := false } := by
    rw [resolvedSite, hlab, hempty]
    rfl
  constructor
  · simp [ObjectCreated, hdup, hsite]
  · simp [ObjectUpdated, hsite]

/-- C1 witness: the amended claim at the concrete missing-namespace cluster. -/
theorem c1_witness :
    ObjectCreated stNoNamespace envNoMail (NotifObj.urr urrFresh) =
      Except.ok [HAction.checkUniqueness "alice", HAction.resolveSite "nsA",
        HAction.deleteURR "nsA" "alice"]
    ∧ ObjectUpdated stNoNamespace (NotifObj.urr urrFresh) =
      Except.ok [HAction.resolveSite "nsA", HAction.deleteURR "nsA" "alice"] := by
  exact c1_theorem stNoNamespace envNoMail urrFresh (by decide) (by decide) (by decide)

/-- C2.  The claim: on the fresh-creation path the supervisor is started only
after the status update (approved=false, expires=now+72h) has been
successfully persisted.  False on the code: `go t.runApprovalTimeout` is
launched right after the spec update, before the status fields are even
assigned, and the UpdateStatus call is deferred to the end of the handler.  On
the concrete fresh run the supervisor start is trace position 4, the status
write position 6, and the supervisor is handed a request whose expires is
still unset. -/
theorem c2_counterexample :
    (traceOf (ObjectCreated stOk envNoMail (NotifObj.urr urrFresh))).any isStartSupervisor = true
    ∧ (traceOf (ObjectCreated stOk envNoMail (NotifObj.urr urrFresh))).any isUpdateStatus = true
    ∧ (traceOf (ObjectCreated stOk envNoMail (NotifObj.urr urrFresh))).findIdx isStartSupervisor = 4
    ∧ (traceOf (ObjectCreated stOk envNoMail (NotifObj.urr urrFresh))).findIdx isUpdateStatus = 6
    ∧ (supervisorStartedWith (traceOf (ObjectCreated stOk envNoMail (NotifObj.urr urrFresh)))).map
        (fun u => u.status.expires) = some none := by
  decide

/-- C2 amended.  On every fresh-creation run the supervisor is started
strictly before the status update establishing approved=false and the 72-hour
deadline, which is deferred to the end of the handler; the supervisor is
launched with a request whose expires field is still unset, i.e. against a
deadline that has not yet been written to the store. -/
theorem c2_theorem (st : ClusterState) (env : Env) (urr : UserRegistrationRequest)
    (hdup : checkUsernameEmailAddress st urr = false)
    (hsite : (resolvedSite st urr.nsName).enabled = true)
    (hexp : urr.status.expires = none) :
    (traceOf (ObjectCreated st env (NotifObj.urr urr))).any isStartSupervisor = true
    ∧ (traceOf (ObjectCreated st env (NotifObj.urr urr))).any isUpdateStatus = true
    ∧ (traceOf (ObjectCreated st env (NotifObj.urr urr))).findIdx isStartSupervisor
        < (traceOf (ObjectCreated st env (NotifObj.urr urr))).findIdx isUpdateStatus
    ∧ (supervisorStartedWith (traceOf (ObjectCreated st env (NotifObj.urr urr)))).map
        (fun u => u.status.expires) = some none
    ∧ statusWrittenWith (traceOf (ObjectCreated st env (NotifObj.urr urr)))
        = some { approved := false, expires := some (env.now + hours72) } := by
  cases hok : env.evCreateOk <;>
    refine ⟨?_, ?_, ?_, ?_, ?_⟩ <;>
      simp only [ObjectCreated, traceOf, hdup, hsite, hexp, hok, Bool.false_eq_true,
        Bool.true_eq_false, if_false, if_true] <;>
      first
        | rfl
        | exact (by decide : (4:Nat) < 6)
        | exact (by decide : (4:Nat) < 7)
        | (show some urr.status.expires = some none
           rw [hexp])

/-- C2 witness: the amended claim at the concrete fresh request. -/
theorem c2_witness :
    (traceOf (ObjectCreated stOk envNoMail (NotifObj.urr urrFresh))).any isStartSupervisor = true
    ∧ (traceOf (ObjectCreated stOk envNoMail (NotifObj.urr urrFresh))).any isUpdateStatus = true
    ∧ (traceOf (ObjectCreated stOk envNoMail (NotifObj.urr urrFresh))).findIdx isStartSupervisor
        < (traceOf (ObjectCreated stOk envNoMail (NotifObj.urr urrFresh))).findIdx isUpdateStatus
    ∧ (supervisorStartedWith (traceOf (ObjectCreated stOk envNoMail (NotifObj.urr urrFresh)))).map
        (fun u => u.status.expires) = some none
    ∧ statusWrittenWith (traceOf (ObjectCreated stOk envNoMail (NotifObj.urr urrFresh)))
        = some { approved := false, expires := some (envNoMail.now + hours72) } := by
  exact c2_theorem stOk envNoMail urrFresh (by decide) (by decide) (by decide)

/-- Helper for C3: the select loop reaching an approved update first, after any
run of unapproved modifications (deadline renewals and status churn), stops the
watch and terminates in the APPROVED phase with no other action, whatever the
armed deadline is. -/
theorem supLoop_approved_first (orig u : UserRegistrationRequest)
    (evs1 evs2 : List SupEvent) (happ : u.status.approved = true) :
    ∀ armed, (∀ e ∈ evs1, ∃ w, e = SupEvent.watchModified w ∧ w.status.approved = false) →
      supLoop orig armed (evs1 ++ SupEvent.watchModified u :: evs2) =
        (SupPhase.approvedDone, [SupAction.stopWatch]) := by
  induction evs1 with
  | nil =>
    intro armed _
    simp [supLoop, happ]
  | cons e t ih =>
    intro armed hpre
    obtain ⟨w, rfl, hw⟩ := hpre e (by simp)
    have ht : ∀ x ∈ t, ∃ w, x = SupEvent.watchModified w ∧ w.status.approved = false :=
      fun x hx => hpre x (by simp [hx])
    cases hexp : w.status.expires with
    | none =>
      simpa [supLoop, hw, hexp] using ih armed ht
    | some tt =>
      simpa [supLoop, hw, hexp] using ih (some tt) ht

/-- C3: if the approval (approved=true) is observed by the supervisor's watch
before its deadline fires — all earlier events being unapproved status
updates — the run terminates in the APPROVED phase having only stopped the
watch: the timeout deletion of the request is never executed, whatever events
(including the deadline firing) were still queued after the approval. -/
theorem c3_theorem (orig u : UserRegistrationRequest) (evs1 evs2 : List SupEvent)
    (hpre : ∀ e ∈ evs1, ∃ w, e = SupEvent.watchModified w ∧ w.status.approved = false)
    (happ : u.status.approved = true) :
    runApprovalTimeout true orig (evs1 ++ SupEvent.watchModified u :: evs2) =
      Except.ok (SupPhase.approvedDone, [SupAction.stopWatch])
    ∧ supDeletes (runApprovalTimeout true orig (evs1 ++ SupEvent.watchModified u :: evs2))
        = false := by
  have h := supLoop_approved_first orig u evs1 evs2 happ orig.status.expires hpre
  constructor
  · simp [runApprovalTimeout, h]
  · simp [runApprovalTimeout, supDeletes, h]

/-- C3 witness: a renewal, then the approval, then the deadline firing — the
run ends APPROVED and deletes nothing. -/
theorem c3_witness :
    runApprovalTimeout true urrReplayed
        ([SupEvent.watchModified urrRenewed] ++
          SupEvent.watchModified urrApproved :: [SupEvent.deadlineFires]) =
      Except.ok (SupPhase.approvedDone, [SupAction.stopWatch])
    ∧ supDeletes (runApprovalTimeout true urrReplayed
        ([SupEvent.watchModified urrRenewed] ++
          SupEvent.watchModified urrApproved :: [SupEvent.deadlineFires])) = false := by
  exact c3_theorem urrReplayed urrApproved [SupEvent.watchModified urrRenewed]
    [SupEvent.deadlineFires]
    (by intro e he
        simp only [List.mem_singleton] at he
        exact ⟨urrRenewed, he, rfl⟩)
    rfl

/-- C4.  The claim: any Account anywhere in the cluster with the candidate's
name makes it a duplicate, so such a request is deleted.  False on the code:
the name check lists Users only in the request's own namespace.  Concretely,
with an Account "alice" in namespace nsB (different email), the request
"alice" in nsA is not flagged and its create run does not delete it. -/
theorem c4_counterexample :
    stOtherNsAccount.users.any (fun u => u.name == urrFresh.name) = true
    ∧ checkUsernameEmailAddress stOtherNsAccount urrFresh = false
    ∧ deletesRequest (ObjectCreated stOtherNsAccount envNoMail (NotifObj.urr urrFresh)) = false := by
  decide

/-- C4 amended.  The name check is namespace-scoped: an Account with the
candidate's proposed name in the candidate's own namespace makes the validator
flag a duplicate, and the create notification then deletes the request
immediately (no Account, secret or verification object is created),
regardless of its email. -/
theorem c4_theorem (st : ClusterState) (env : Env) (urr : UserRegistrationRequest) (u : User)
    (hu : u ∈ st.users) (hns : u.nsName = urr.nsName) (hname : u.name = urr.name) :
    checkUsernameEmailAddress st urr = true
    ∧ ObjectCreated st env (NotifObj.urr urr) =
        Except.ok [HAction.checkUniqueness urr.name, HAction.deleteURR urr.nsName urr.name] := by
  have hmem : u ∈ st.users.filter (fun v => v.nsName == urr.nsName && v.name == urr.name) := by
    simp [List.mem_filter, hu, hns, hname]
  have hck : checkUsernameEmailAddress st urr = true := by
    unfold checkUsernameEmailAddress
    have hlen : ((st.users.filter
        (fun v => v.nsName == urr.nsName && v.name == urr.name)).length == 0) = false := by
      cases hfl : st.users.filter (fun v => v.nsName == urr.nsName && v.name == urr.name) with
      | nil => rw [hfl] at hmem; simp at hmem
      | cons a l => simp
    simp [hlen]
  exact ⟨hck, by simp [ObjectCreated, hck]⟩

/-- C4 witness: the amended claim with the Account "alice" in the request's
own namespace. -/
theorem c4_witness :
    checkUsernameEmailAddress stSameNsAccount urrFresh = true
    ∧ ObjectCreated stSameNsAccount envNoMail (NotifObj.urr urrFresh) =
        Except.ok [HAction.checkUniqueness "alice", HAction.deleteURR "nsA" "alice"] := by
  exact c4_theorem stSameNsAccount envNoMail urrFresh userAliceNsA (by decide) rfl rfl

/-- C5.  The claim: after an approval completes, the PasswordSecret's
controlling owner reference is rewritten to point at the new Account.  False
on the code: the handler appends a reference built with Controller set to
false and rewrites nothing.  Concretely, the secret written back by the
approval run has no controlling reference to the Account "alice". -/
theorem c5_counterexample :
    (secretWritten (traceOf (ObjectUpdated stApproval (NotifObj.urr urrApproved)))).map
      (fun s => hasControllingAccountRef s "alice") = some false := by
  decide

/-- C5 amended.  After an approval completes (site enabled, approved, no
duplicate, secret found), the handler appends to the PasswordSecret one new
owner reference to the Account — a non-controlling one (controller=false) —
leaving every pre-existing reference in place, and then deletes the request. -/
theorem c5_theorem (st : ClusterState) (urr : UserRegistrationRequest) (s0 : Secret)
    (hsite : (resolvedSite st urr.nsName).enabled = true)
    (happ : urr.status.approved = true)
    (hdup : checkUsernameEmailAddress st urr = false)
    (hsec : st.secrets.find?
        (fun s => s.nsName == urr.nsName && s.name == urr.name ++ "-pass") = some s0) :
    ObjectUpdated st (NotifObj.urr urr) =
      Except.ok [HAction.resolveSite urr.nsName, HAction.checkUniqueness urr.name,
        HAction.createUser (mkUser urr), HAction.getSecret (urr.name ++ "-pass"),
        HAction.updateSecret urr.nsName
          { s0 with ownerReferences := s0.ownerReferences ++ [accountRef urr.name] },
        HAction.deleteURR urr.nsName urr.name]
    ∧ (accountRef urr.name).controller = false := by
  refine ⟨?_, rfl⟩
  simp [ObjectUpdated, hsite, happ, hdup, hsec]

/-- C5 witness: the amended claim at the concrete approval state. -/
theorem c5_witness :
    ObjectUpdated stApproval (NotifObj.urr urrApproved) =
      Except.ok [HAction.resolveSite "nsA", HAction.checkUniqueness "alice",
        HAction.createUser (mkUser urrApproved), HAction.getSecret ("alice" ++ "-pass"),
        HAction.updateSecret "nsA"
          { secretAlice with
              ownerReferences := secretAlice.ownerReferences ++ [accountRef "alice"] },
        HAction.deleteURR "nsA" "alice"]
    ∧ (accountRef "alice").controller = false := by
  exact c5_theorem stApproval urrApproved secretAlice (by decide) (by decide) (by decide)
    (by decide)

/-- C6: replaying a create notification for a request whose expires is already
set (site enabled, no duplicate) only restarts the supervisor: the whole trace
is the uniqueness check, the site resolution and the supervisor start — no
secret creation, no status write, no verification object, no mail. -/
theorem c6_theorem (st : ClusterState) (env : Env) (urr : UserRegistrationRequest) (t : Int)
    (hdup : checkUsernameEmailAddress st urr = false)
    (hsite : (resolvedSite st urr.nsName).enabled = true)
    (hexp : urr.status.expires = some t) :
    ObjectCreated st env (NotifObj.urr urr) =
      Except.ok [HAction.checkUniqueness urr.name, HAction.resolveSite urr.nsName,
        HAction.startSupervisor urr]
    ∧ (traceOf (ObjectCreated st env (NotifObj.urr urr))).any isCreateSecret = false
    ∧ (traceOf (ObjectCreated st env (NotifObj.urr urr))).any isUpdateStatus = false
    ∧ (traceOf (ObjectCreated st env (NotifObj.urr urr))).any isCreateEV = false
    ∧ (traceOf (ObjectCreated st env (NotifObj.urr urr))).any isSendMail = false := by
  have h : ObjectCreated st env (NotifObj.urr urr) =
      Except.ok [HAction.checkUniqueness urr.name, HAction.resolveSite urr.nsName,
        HAction.startSupervisor urr] := by
    simp [ObjectCreated, hdup, hsite, hexp]
  refine ⟨h, ?_, ?_, ?_, ?_⟩ <;> (simp only [traceOf, h]; rfl)

/-- C6 witness: the replay at the concrete admitted request. -/
theorem c6_witness :
    ObjectCreated stOk envNoMail (NotifObj.urr urrReplayed) =
      Except.ok [HAction.checkUniqueness "alice", HAction.resolveSite "nsA",
        HAction.startSupervisor urrReplayed]
    ∧ (traceOf (ObjectCreated stOk envNoMail (NotifObj.urr urrReplayed))).any isCreateSecret
        = false
    ∧ (traceOf (ObjectCreated stOk envNoMail (NotifObj.urr urrReplayed))).any isUpdateStatus
        = false
    ∧ (traceOf (ObjectCreated stOk envNoMail (NotifObj.urr urrReplayed))).any isCreateEV
        = false
    ∧ (traceOf (ObjectCreated stOk envNoMail (NotifObj.urr urrReplayed))).any isSendMail
        = false := by
  exact c6_theorem stOk envNoMail urrReplayed 100 (by decide) (by decide) (by decide)

/-- C7.  The claim: with the watch subscription failed, the supervisor runs
against the fixed 72-hour fallback deadline and, when it elapses, deletes the
request and terminates.  On the code, when that fallback timer fires the
select's timeout branch first calls Stop() through the nil watch interface the
failed Watch call returned, which panics before the Delete call is reached:
the run aborts and the request is never deleted. -/
theorem c7_theorem :
    runApprovalTimeout false urrReplayed [SupEvent.deadlineFires] =
      Except.error "runtime error: invalid memory address or nil pointer dereference"
    ∧ supDeletes (runApprovalTimeout false urrReplayed [SupEvent.deadlineFires]) = false := by
  exact ⟨rfl, rfl⟩

/-- C8.  The claim: the disabled-site check is performed first on every create
notification and the Uniqueness Validator runs only after the site has been
found enabled.  False on the code: checkUsernameEmailAddress is the first call
of ObjectCreated, before the namespace or site is ever read.  Concretely, with
the site disabled, the trace still begins with the uniqueness check, ahead of
the site resolution. -/
theorem c8_counterexample :
    (resolvedSite stDisabled urrFresh.nsName).enabled = false
    ∧ traceOf (ObjectCreated stDisabled envNoMail (NotifObj.urr urrFresh)) =
        [HAction.checkUniqueness "alice", HAction.resolveSite "nsA",
          HAction.deleteURR "nsA" "alice"] := by
  decide

/-- C8 amended.  On every create notification the Uniqueness Validator runs
first: the trace always begins with the uniqueness check; a duplicate is
deleted before the site is ever resolved; only a non-duplicate has its site
resolved, and if the site is not enabled the request is then deleted. -/
theorem c8_theorem (st : ClusterState) (env : Env) (urr : UserRegistrationRequest) :
    (traceOf (ObjectCreated st env (NotifObj.urr urr))).head? =
      some (HAction.checkUniqueness urr.name)
    ∧ (checkUsernameEmailAddress st urr = true →
        traceOf (ObjectCreated st env (NotifObj.urr urr)) =
          [HAction.checkUniqueness urr.name, HAction.deleteURR urr.nsName urr.name])
    ∧ (checkUsernameEmailAddress st urr = false →
        (resolvedSite st urr.nsName).enabled = false →
          traceOf (ObjectCreated st env (NotifObj.urr urr)) =
            [HAction.checkUniqueness urr.name, HAction.resolveSite urr.nsName,
              HAction.deleteURR urr.nsName urr.name]) := by
  refine ⟨?_, ?_, ?_⟩
  · cases hdup : checkUsernameEmailAddress st urr
    · cases hsite : (resolvedSite st urr.nsName).enabled
      · simp only [ObjectCreated, traceOf, hdup, hsite, Bool.false_eq_true, if_false]
        rfl
      · cases hexp : urr.status.expires with
        | none =>
          cases hok : env.evCreateOk <;>
            simp only [ObjectCreated, traceOf, hdup, hsite, hexp, hok, Bool.false_eq_true,
              if_false, if_true] <;> rfl
        | some t =>
          simp only [ObjectCreated, traceOf, hdup, hsite, hexp, Bool.false_eq_true, if_false,
            if_true]
          rfl
    · simp only [ObjectCreated, traceOf, hdup, if_true]
      rfl
  · intro hdup
    simp only [ObjectCreated, traceOf, hdup, if_true]
    rfl
  · intro hdup hsite
    simp only [ObjectCreated, traceOf, hdup, hsite, Bool.false_eq_true, if_false]
    rfl

/-- C8 witness: the amended claim at the disabled-site cluster. -/
theorem c8_witness :
    (traceOf (ObjectCreated stDisabled envNoMail (NotifObj.urr urrFresh))).head? =
      some (HAction.checkUniqueness "alice")
    ∧ (checkUsernameEmailAddress stDisabled urrFresh = true →
        traceOf (ObjectCreated stDisabled envNoMail (NotifObj.urr urrFresh)) =
          [HAction.checkUniqueness "alice", HAction.deleteURR "nsA" "alice"])
    ∧ (checkUsernameEmailAddress stDisabled urrFresh = false →
        (resolvedSite stDisabled urrFresh.nsName).enabled = false →
          traceOf (ObjectCreated stDisabled envNoMail (NotifObj.urr urrFresh)) =
            [HAction.checkUniqueness "alice", HAction.resolveSite "nsA",
              HAction.deleteURR "nsA" "alice"]) := by
  exact c8_theorem stDisabled envNoMail urrFresh

/-- Helper for C9: generateRandomString yields exactly n characters. -/
theorem generateRandomString_length (n : Nat) (rng : Nat → Nat) :
    (generateRandomString n rng).length = n := by
  simp [generateRandomString]

/-- Helper for C9: every character generateRandomString draws comes from the
lowercase-alphanumeric table. -/
theorem generateRandomString_mem (n : Nat) (rng : Nat → Nat) :
    ∀ c ∈ (generateRandomString n rng).toList, c ∈ letterTable := by
  intro c hc
  have hrw : (generateRandomString n rng).toList =
      (List.range n).map (fun i => letterTable.getD (rng i % letterTable.length) 'a') := rfl
  rw [hrw, List.mem_map] at hc
  obtain ⟨i, hi, rfl⟩ := hc
  have hlt : rng i % letterTable.length < letterTable.length :=
    Nat.mod_lt _ (by decide)
  rw [List.getD_eq_getElem?_getD, List.getElem?_eq_getElem hlt, Option.getD_some]
  exact List.getElem_mem hlt

/-- Helper for C9: the verification code "bs" ++ random is still entirely
lowercase-alphanumeric. -/
theorem bsCode_mem (rng : Nat → Nat) :
    ∀ c ∈ ("bs" ++ generateRandomString 16 rng).toList, c ∈ letterTable := by
  intro c hc
  have hrw : ("bs" ++ generateRandomString 16 rng).toList =
      'b' :: 's' :: (generateRandomString 16 rng).toList := rfl
  rw [hrw] at hc
  rcases List.mem_cons.mp hc with h | hc
  · subst h; decide
  rcases List.mem_cons.mp hc with h | hc
  · subst h; decide
  exact generateRandomString_mem 16 rng c hc

/-- C9.  The claim: the VerificationChallenge is named with a random code of
exactly 16 lowercase-alphanumeric characters.  False on the code: the name is
"bs" prepended to generateRandomString(16), 18 characters.  Concretely, the
created object's name has length 18, not 16. -/
theorem c9_counterexample :
    (evCreated (traceOf (ObjectCreated stOk envMail (NotifObj.urr urrFresh)))).map
        (fun ev => ev.name.length) = some 18
    ∧ (evCreated (traceOf (ObjectCreated stOk envMail (NotifObj.urr urrFresh)))).map
        (fun ev => ev.name.length) ≠ some 16
    ∧ (evCreated (traceOf (ObjectCreated stOk envMail (NotifObj.urr urrFresh)))).map
        (fun ev => ev.name) = some "bsaaaaaaaaaaaaaaaa" := by
  refine ⟨by decide, by decide, by decide⟩

/-- C9 amended.  On every admission the VerificationChallenge is named "bs"
followed by the random 16-character lowercase-alphanumeric string — 18
lowercase-alphanumeric characters in all — carries kind="User" and
identifier=<request name>, and the mail is handed to the mailer exactly when
the object creation succeeded. -/
theorem c9_theorem (st : ClusterState) (env : Env) (urr : UserRegistrationRequest)
    (hdup : checkUsernameEmailAddress st urr = false)
    (hsite : (resolvedSite st urr.nsName).enabled = true)
    (hexp : urr.status.expires = none) :
    (evCreated (traceOf (ObjectCreated st env (NotifObj.urr urr)))).map
        (fun ev => ev.name) = some ("bs" ++ generateRandomString 16 env.rng)
    ∧ (evCreated (traceOf (ObjectCreated st env (NotifObj.urr urr)))).map
        (fun ev => ev.name.length) = some 18
    ∧ (∀ c ∈ ("bs" ++ generateRandomString 16 env.rng).toList, c ∈ letterTable)
    ∧ (evCreated (traceOf (ObjectCreated st env (NotifObj.urr urr)))).map
        (fun ev => ev.spec.kind) = some "User"
    ∧ (evCreated (traceOf (ObjectCreated st env (NotifObj.urr urr)))).map
        (fun ev => ev.spec.identifier) = some urr.name
    ∧ (traceOf (ObjectCreated st env (NotifObj.urr urr))).any isSendMail = env.evCreateOk := by
  cases hok : env.evCreateOk <;>
    refine ⟨?_, ?_, ?_, ?_, ?_, ?_⟩ <;>
      first
        | exact bsCode_mem env.rng
        | (simp only [ObjectCreated, traceOf, hdup, hsite, hexp, hok, Bool.false_eq_true,
             Bool.true_eq_false, if_false, if_true]
           rfl)

/-- C9 witness: the amended claim at the concrete fresh request (creation
succeeding, so the mail is sent). -/
theorem c9_witness :
    (evCreated (traceOf (ObjectCreated stOk envMail (NotifObj.urr urrFresh)))).map
        (fun ev => ev.name) = some ("bs" ++ generateRandomString 16 envMail.rng)
    ∧ (evCreated (traceOf (ObjectCreated stOk envMail (NotifObj.urr urrFresh)))).map
        (fun ev => ev.name.length) = some 18
    ∧ (∀ c ∈ ("bs" ++ generateRandomString 16 envMail.rng).toList, c ∈ letterTable)
    ∧ (evCreated (traceOf (ObjectCreated stOk envMail (NotifObj.urr urrFresh)))).map
        (fun ev => ev.spec.kind) = some "User"
    ∧ (evCreated (traceOf (ObjectCreated stOk envMail (NotifObj.urr urrFresh)))).map
        (fun ev => ev.spec.identifier) = some "alice"
    ∧ (traceOf (ObjectCreated stOk envMail (NotifObj.urr urrFresh))).any isSendMail
        = envMail.evCreateOk := by
  exact c9_theorem stOk envMail urrFresh (by decide) (by decide) (by decide)

/-- C10: a notification payload that is not a UserRegistrationRequest makes
both handlers fail on the unchecked type assertion instead of returning
normally, and every UserRegistrationRequest payload returns normally: the
handlers are total exactly over UserRegistrationRequest inputs. -/
theorem c10_theorem (st : ClusterState) (env : Env) (urr : UserRegistrationRequest) :
    ObjectCreated st env NotifObj.other =
      Except.error "interface conversion: not a UserRegistrationRequest"
    ∧ ObjectUpdated st NotifObj.other =
      Except.error "interface conversion: not a UserRegistrationRequest"
    ∧ runsOk (ObjectCreated st env (NotifObj.urr urr)) = true
    ∧ runsOk (ObjectUpdated st (NotifObj.urr urr)) = true := by
  refine ⟨rfl, rfl, ?_, ?_⟩
  · cases hdup : checkUsernameEmailAddress st urr <;>
      cases hsite : (resolvedSite st urr.nsName).enabled <;>
      cases hexp : urr.status.expires <;>
      cases hok : env.evCreateOk <;>
      simp only [ObjectCreated, hdup, hsite, hexp, hok, Bool.false_eq_true, Bool.true_eq_false,
        if_false, if_true] <;> rfl
  · cases hsite : (resolvedSite st urr.nsName).enabled <;>
      cases happ : urr.status.approved <;>
      cases hdup : checkUsernameEmailAddress st urr <;>
      simp only [ObjectUpdated, hsite, happ, hdup, Bool.false_eq_true, Bool.true_eq_false,
        if_false, if_true] <;> rfl
